import Mathlib

/-!
Verification of the resilient AutoCAD automation layer of this repository.

The Lean definitions below are a shallow embedding of the Python sources:

* `src/utils/com_error_handler.py`  — `COMErrorHandler.execute_with_retry`
* `src/utils/autocad_connector.py`  — `AutocadCOMConnector` (liveness probe,
  entity scan, dynamic-property read/write)
* `src/autocad-detalhamento-suportes.py` — `AutocadWorker.run` (the batch
  document pipeline)

COM calls are modelled by explicit environments describing what the external
AutoCAD server would answer; `time.sleep`, timestamps and log/progress GUI
signals carry no data relevant to the claims and are either dropped or
recorded as abstract trace events.
-/

deriving instance DecidableEq for Except

/-! ## Retry executor (src/utils/com_error_handler.py) -/

/-- A fault raised by an operation: either a `pythoncom.com_error` carrying an
HRESULT, or any other Python exception (represented by its message). -/

inductive COMFault where
  | comError (hresult : Int)
  | pyError (msg : String)

deriving DecidableEq

/-- Result of one attempt of the wrapped zero-argument operation. -/

inductive AttemptResult (α : Type) where
  | ok (a : α)
  | err (f : COMFault)

deriving DecidableEq

/-- One entry of the retry attempt log (`COMErrorInfo` in the source; the
wall-clock `timestamp` field is not modelled). -/

structure COMErrorInfo where
  attempt : Nat
  operation : String
  fault : COMFault

deriving DecidableEq

/-- What `execute_with_retry` can raise: the underlying fault itself
(a bare `raise` at lines 93 and 98 of the source), or the generic
"`<name>` falhou após `<retries>` tentativas" exception of line 100. -/

inductive RunException where
  | fault (f : COMFault)
  | generic (operationName : String) (retries : Nat)

deriving DecidableEq

/-- HRESULT of RPC_E_CALL_REJECTED (AutoCAD busy). -/

def RPC_E_CALL_REJECTED : Int := -2147418111

/-- HRESULT of RPC_E_SERVERCALL_RETRYLATER. -/

def RPC_E_SERVERCALL_RETRYLATER : Int := -2147418110

/-- The transient-fault classification of line 85 of the source: a
`com_error` whose HRESULT is one of the two RPC codes. Any non-COM
exception takes the second `except` branch, which never retries, so it is
treated as non-recoverable here as well. -/

def is_recoverable_com_error : COMFault → Bool
  | .comError h => h == RPC_E_CALL_REJECTED || h == RPC_E_SERVERCALL_RETRYLATER
  | .pyError _ => false

/-- The `for attempt in range(1, retries + 1)` loop of
`COMErrorHandler.execute_with_retry` (lines 77-100).  `remaining` is the
number of loop iterations still available including the current one, so the
call starts with `remaining = retries`, `attempt = 1`; reaching
`remaining = 0` means the `for` loop finished without returning, which is
line 100 (the generic exception).  The operation is modelled as a function
from the 1-based attempt number to that attempt's outcome, and
`time.sleep(delay)` is dropped. Every failed attempt is appended to the
error log before the retry decision, exactly as in the source; a successful
attempt returns without touching the log. -/

def execFrom {α : Type} (op : Nat → AttemptResult α) (name : String) (retries : Nat) :
    Nat → Nat → List COMErrorInfo → List COMErrorInfo × Except RunException α
  | 0, _, log => (log, Except.error (RunException.generic name retries))
  | remaining + 1, attempt, log =>
    match op attempt with
    | .ok a => (log, Except.ok a)
    | .err f =>
      let log2 := log ++ [⟨attempt, name, f⟩]
      if is_recoverable_com_error f && attempt < retries then
        execFrom op name retries remaining (attempt + 1) log2
      else
        (log2, Except.error (RunException.fault f))

/-- `COMErrorHandler.execute_with_retry(func, operation_name, max_retries)`:
returns the final state of the instance's `_error_log` (started from `log`)
together with either the operation's value or the exception propagated to
the caller. -/

def execute_with_retry {α : Type} (op : Nat → AttemptResult α) (name : String)
    (retries : Nat) (log : List COMErrorInfo) :
    List COMErrorInfo × Except RunException α :=
  execFrom op name retries retries 1 log

/-- The operation of claim C1's scenario: transient (busy) faults on
attempts 1 and 2, success with value 42 on attempt 3. -/

def opC1 : Nat → AttemptResult Nat :=
  fun n => if n ≤ 2 then .err (.comError RPC_E_CALL_REJECTED) else .ok 42

/-- The operation of claim C3's scenario: a transient (busy) fault on every
attempt. -/

def opC3 : Nat → AttemptResult Nat :=
  fun _ => .err (.comError RPC_E_CALL_REJECTED)

/-! ## Connector (src/utils/autocad_connector.py) -/

/-- A dynamically typed Python value flowing into `float(novo_valor)`:
either a value on which `float()` succeeds (an int, a float, or a numeric
string), carrying the number it converts to, or a value on which `float()`
raises `ValueError`/`TypeError`. -/

inductive PyValue where
  | num (q : ℚ)
  | nonNum (s : String)

deriving DecidableEq

/-- `float(novo_valor)` as used at line 395 of the connector: `some` of the
converted number, or `none` when the conversion raises. -/

def tryFloat : PyValue → Option ℚ
  | .num q => some q
  | .nonNum _ => none

/-- One dynamic-block property as seen over COM.  `valueMinimum` /
`valueMaximum` are `some` exactly when `hasattr(prop, 'ValueMinimum')` /
`hasattr(prop, 'ValueMaximum')` hold.  `showFlag` is the COM `Show` flag
(`show` is a Lean keyword). -/

structure DynProp where
  propertyName : String
  value : PyValue
  showFlag : Bool
  readOnly : Bool
  valueMinimum : Option ℚ
  valueMaximum : Option ℚ

deriving DecidableEq

/-- One block attribute: its tag and its text. -/

structure AttribRef where
  tagString : String
  textString : String

deriving DecidableEq

/-- One entity of the live ModelSpace collection, with the COM properties
the connector reads.  `dynProps` is what `GetDynamicBlockProperties()`
yields; for a non-dynamic block it is empty, which is observationally the
same as the call raising inside the per-entity `try`/`except: continue`. -/

structure AcadEntity where
  entityName : String
  name : String
  handle : String
  layer : String
  posicaoX : ℚ
  posicaoY : ℚ
  posicaoZ : ℚ
  isDynamicBlock : Bool
  hasAttributes : Bool
  attributes : List AttribRef
  dynProps : List DynProp

deriving DecidableEq

/-- The `(sucesso, mensagem)` strings returned by `atualizar_propriedade`,
abstracted to one constructor per distinct message format of the source
(lines 379, 397-400, 405, 408). -/

inductive UpdateMsg where
  | naoConectado
  | foraDosLimites (novoValor : PyValue) (vmin vmax : ℚ)
  | atualizadaComSucesso
  | naoEncontrada

deriving DecidableEq

/-- The inner `for prop in dyn_props` loop of `update_prop` (lines 390-405):
`none` when no property of the entity bears the requested name (the loop
falls through and the outer entity loop continues); otherwise the updated
property list together with the `(bool, msg)` returned. -/

def updateDynProps (nome : String) (nv : PyValue) :
    List DynProp → Option (List DynProp × Bool × UpdateMsg)
  | [] => none
  | p :: rest =>
    if p.propertyName = nome then
      match p.valueMinimum, p.valueMaximum with
      | some vmin, some vmax =>
        match tryFloat nv with
        | some v =>
          if ¬ (vmin ≤ v ∧ v ≤ vmax) then
            some (p :: rest, false, UpdateMsg.foraDosLimites nv vmin vmax)
          else
            some ({ p with value := nv } :: rest, true, UpdateMsg.atualizadaComSucesso)
        | none =>
            some ({ p with value := nv } :: rest, true, UpdateMsg.atualizadaComSucesso)
      | _, _ =>
            some ({ p with value := nv } :: rest, true, UpdateMsg.atualizadaComSucesso)
    else
      match updateDynProps nome nv rest with
      | some (rest2, ok, msg) => some (p :: rest2, ok, msg)
      | none => none

/-- The `update_prop` closure of `AutocadCOMConnector.atualizar_propriedade`
(lines 382-408): scans the ModelSpace by index for the first block
reference with the given handle whose property list contains the named
property, and either validates-and-writes or keeps scanning.  Returns the
ModelSpace after the call (COM mutation made explicit) plus the
`(sucesso, mensagem)` pair. -/

def update_prop (handle nome : String) (nv : PyValue) :
    List AcadEntity → List AcadEntity × Bool × UpdateMsg
  | [] => ([], false, UpdateMsg.naoEncontrada)
  | e :: rest =>
    if e.entityName = "AcDbBlockReference" ∧ e.handle = handle then
      match updateDynProps nome nv e.dynProps with
      | some (props2, ok, msg) => ({ e with dynProps := props2 } :: rest, ok, msg)
      | none =>
        let r := update_prop handle nome nv rest
        (e :: r.1, r.2)
    else
      let r := update_prop handle nome nv rest
      (e :: r.1, r.2)

/-- The `get_props` closure of `obter_propriedades_bloco` (lines 322-351):
the dynamic properties (minus the synthetic "Origin") of the first dynamic
block reference carrying the handle; empty when none is found. -/

def get_props (handle : String) : List AcadEntity → List DynProp
  | [] => []
  | e :: rest =>
    if e.entityName = "AcDbBlockReference" ∧ e.handle = handle then
      if e.isDynamicBlock then
        e.dynProps.filter (fun p => p.propertyName ≠ "Origin")
      else get_props handle rest
    else get_props handle rest

/-- First property with the requested name, mirroring the iteration order of
the inner loop of `update_prop`. -/

def findDynProp (nome : String) : List DynProp → Option DynProp
  | [] => none
  | p :: rest => if p.propertyName = nome then some p else findDynProp nome rest

/-- The property that `update_prop`'s search would reach: first block
reference with the handle that has a property of the requested name. -/

def findProp (handle nome : String) : List AcadEntity → Option DynProp
  | [] => none
  | e :: rest =>
    if e.entityName = "AcDbBlockReference" ∧ e.handle = handle then
      match findDynProp nome e.dynProps with
      | some p => some p
      | none => findProp handle nome rest
    else findProp handle nome rest

/-! ## Session liveness (`_ensure_valid_connection`, connector lines 149-181) -/

/-- Opaque handles to the external COM objects. -/

abbrev ServerHandle := Nat

/-- Opaque handle to a document object. -/

abbrev DocHandle := Nat

/-- Opaque handle to a ModelSpace collection object. -/

abbrev ModelHandle := Nat

/-- What the COM world answers during `_ensure_valid_connection`:
whether reading `.Version` on a held server handle succeeds, what
`win32com.client.GetActiveObject("AutoCAD.Application")` yields (`none`
when no instance is running / the call raises), and the document state of
a running instance.  `GetActiveObject` attaches to an already-running

instance only; the re-attach path never calls `Dispatch` (no launch) and
never waits for a document. -/

structure COMWorld where
  versionProbeOk : ServerHandle → Bool
  activeObject : Option ServerHandle
  documentsCount : ServerHandle → Nat
  activeDocument : ServerHandle → DocHandle
  modelSpaceOf : DocHandle → ModelHandle

/-- The connector's session fields `_acad`, `_acad_doc`, `_acad_model`,
`_is_initialized`. -/

structure ConnectorState where
  acad : Option ServerHandle
  acadDoc : Option DocHandle
  acadModel : Option ModelHandle
  isInitialized : Bool

deriving DecidableEq

/-- `_cleanup` (lines 142-147): all handles cleared. -/

def cleanupState : ConnectorState :=
  { acad := none, acadDoc := none, acadModel := none, isInitialized := false }

/-- `_ensure_valid_connection` (lines 149-181): `False` without probing when
no server handle is held; otherwise a cheap `.Version` probe; on probe
fault, `_cleanup()` then a single silent `GetActiveObject` re-attach that
binds the active document and ModelSpace only when the re-acquired server
reports at least one open document, else `False`. -/

def ensure_valid_connection (w : COMWorld) (s : ConnectorState) :
    ConnectorState × Bool :=
  match s.acad with
  | none => (s, false)
  | some h =>
    if w.versionProbeOk h then (s, true)
    else
      match w.activeObject with
      | some h2 =>
        if 0 < w.documentsCount h2 then
          ({ acad := some h2, acadDoc := some (w.activeDocument h2),
             acadModel := some (w.modelSpaceOf (w.activeDocument h2)),
             isInitialized := true }, true)
        else ({ cleanupState with acad := some h2 }, false)
      | none => (cleanupState, false)

/-! ## Batch pipeline (`AutocadWorker.run`, src/autocad-detalhamento-suportes.py)

The worker thread is embedded from the point where the Excel contents have
been read and validated and the COM connection is established (lines
163-357); the earlier validation/connection failures return before any
group is processed and are outside the claims below.  Retry-guarded COM
calls (`Documents.Open`, `SaveAs`, the attribute fill) are modelled by the
overall outcome the retry wrapper delivers to the worker: the value, or the
exception it re-raises.  `time.sleep`, progress percentages and log strings
are dropped; emitted Qt signals and document handle operations are recorded
as trace events (newest first). -/

/-- One attribute of a block reference in the template's PaperSpace. -/

structure PSAttrib where
  tagString : String
  textString : String

deriving DecidableEq

/-- One entity of the template document's PaperSpace as the worker reads it
(`entity.ObjectName`, `entity.HasAttributes`, `entity.GetAttributes()`). -/

structure PSEntity where
  objectName : String
  hasAttributes : Bool
  attributes : List PSAttrib

deriving DecidableEq

/-- One row of the validated Excel sheet.  `posicao`, `elevacao` are the
already-`str()`-ed cell values; a `MEDIDA_*` field is `none` when
`pd.notna` is false (the worker substitutes `"-"`). -/

structure Row where
  posicao : String
  tipoSuporte : String
  elevacao : String
  medidaH : Option String
  medidaL : Option String
  medidaM : Option String
  medidaH1 : Option String
  medidaH2 : Option String
  medidaL1 : Option String
  medidaL2 : Option String
  medidaB : Option String

deriving DecidableEq

/-- The per-run statistics object (`ProcessingStats`); detail strings are
abstracted to the pair of values interpolated into them. -/

structure Stats where
  total : Nat
  success : Nat
  template_not_found : Nat
  errors : Nat
  no_attributes : Nat
  duplicates : Nat
  error_details : List (String × String)
  not_found_details : List (String × String)
  no_attributes_details : List (String × String)
  duplicate_details : List (String × String)

deriving DecidableEq

/-- Observable actions of one run, recorded newest-first. -/

inductive Event where
  | groupStarted (tipo : String)
  | docOpened (tipo : String)
  | rowStarted (tipo posicao : String)
  | fileSaved (filename : String)
  | docClosed
  | docCloseNoSave
  | cancelledEmitted
  | finishedEmitted (stats : Stats)

deriving DecidableEq

/-- The worker's mutable run state: statistics, the run-scoped
`position_counter` dict, `processed_count`, how many times each kind of
external call has been made (used to index the environment), whether the
Python variables `doc` / `template_doc` currently hold a handle, and the
event trace. -/

structure WorkerState where
  stats : Stats
  position_counter : List (String × Nat)
  processedCount : Nat
  openTick : Nat
  saveTick : Nat
  closeTick : Nat
  cancelTick : Nat
  docVar : Bool
  templateDocVar : Bool
  trace : List Event

deriving DecidableEq

/-- The external world of one run: whether each template file exists, the
PaperSpace contents a freshly opened template presents, the outcome of the
k-th `Documents.Open` / `SaveAs` / `doc.Close()` call (`Except.error` is the
exception the retry wrapper re-raises), the value of the cooperative cancel
flag at its k-th read, and today's date string. -/

structure BatchEnv where
  templateExists : String → Bool
  paperSpace : String → List PSEntity
  openResult : Nat → Except String Unit
  saveResult : Nat → Except String Unit
  closeResult : Nat → Except String Unit
  cancelFlag : Nat → Bool
  today : String

/-- `str(value) if pd.notna(value) else "-"`. -/

def orDash : Option String → String
  | some s => s
  | none => "-"

/-- The `attribute_mapping` dict built for one row (lines 259-268);
`DATA_ATUAL` is today's date string. -/

def attribute_mapping (today tipo : String) (row : Row) : List (String × String) :=
  [("POSICAO", row.posicao),
   ("TIPOSUPORTE", tipo),
   ("ELEVACAO", row.elevacao.replace "," "."),
   ("H", orDash row.medidaH), ("L", orDash row.medidaL), ("M", orDash row.medidaM),
   ("H1", orDash row.medidaH1), ("H2", orDash row.medidaH2),
   ("L1", orDash row.medidaL1), ("L2", orDash row.medidaL2),
   ("B", orDash row.medidaB),
   ("DATA_ATUAL", today)]

/-- Python's `str.upper()` character by character (`String.toUpper` has the
same meaning but is not kernel-reducible, so concrete witnesses could not
be evaluated through it). -/

def strUpper (s : String) : String :=
  ⟨s.data.map Char.toUpper⟩

/-- Attribute update for one attribute-bearing block reference: every
attribute whose uppercased tag is a key of the mapping receives the mapped
text; returns the updated entity and the number of writes. -/

def fillEntity (mapping : List (String × String)) (e : PSEntity) : PSEntity × Nat :=
  ({ e with attributes := e.attributes.map (fun a =>
      match mapping.lookup (strUpper a.tagString) with
      | some v => { a with textString := v }
      | none => a) },
   (e.attributes.filter (fun a => (mapping.lookup (strUpper a.tagString)).isSome)).length)

/-- The `fill_attributes` closure (lines 287-296): walks the PaperSpace,
setting `found_attributes` when any attribute-bearing block reference is
seen and counting every attribute write.  Returns the updated PaperSpace,
`attr_count` and `found_attributes`.  (In the source this closure runs
under the retry wrapper inside `try/except: pass`; a fault would abandon it
mid-way, which the fault-free model does not represent — the claims below
only concern runs where the fill itself completes.) -/

def fill_attributes (mapping : List (String × String)) :
    List PSEntity → List PSEntity × Nat × Bool
  | [] => ([], 0, false)
  | e :: rest =>
    let r := fill_attributes mapping rest
    if e.objectName = "AcDbBlockReference" ∧ e.hasAttributes then
      let fe := fillEntity mapping e
      (fe.1 :: r.1, fe.2 + r.2.1, true)
    else
      (e :: r.1, r.2.1, r.2.2)

/-- `position_counter[posicao] = v` on the dict modelled as an association
list. -/

def setCount (k : String) (v : Nat) : List (String × Nat) → List (String × Nat)
  | [] => [(k, v)]
  | (k2, v2) :: rest => if k2 = k then (k, v) :: rest else (k2, v2) :: setCount k v rest

/-- How one row's processing ends: fall through to the next row, an
exception escaping to the group-level handler, or the cancel flag observed
(the worker returns). -/

inductive RowExit where
  | next
  | raised (msg : String)
  | cancelledHit

deriving DecidableEq

/-- Row body after the duplicate-key step (lines 250-331): derive the output
filename, reopen the template for rows after the group's first, fill the
attributes, and either categorize `no_attributes`, or save and close. -/

def processRowFill (env : BatchEnv) (tipo : String) (row : Row) (idx : Nat)
    (st : WorkerState) (posicao output_filename : String) : WorkerState × RowExit :=
  let fr := fill_attributes (attribute_mapping env.today tipo row) (env.paperSpace tipo)
  if fr.2.2 = false ∨ fr.2.1 = 0 then
    ({ st with
        stats := { st.stats with
          no_attributes := st.stats.no_attributes + 1,
          no_attributes_details := st.stats.no_attributes_details ++ [(posicao, tipo)] },
        docVar := false,
        trace := if 0 < idx then Event.docCloseNoSave :: st.trace else st.trace },
      RowExit.next)
  else
    match env.saveResult st.saveTick with
    | Except.error m => ({ st with saveTick := st.saveTick + 1 }, RowExit.raised m)
    | Except.ok _ =>
      let st2 : WorkerState :=
        { st with saveTick := st.saveTick + 1,
                  trace := Event.fileSaved output_filename :: st.trace }
      match env.closeResult st2.closeTick with
      | Except.error m => ({ st2 with closeTick := st2.closeTick + 1 }, RowExit.raised m)
      | Except.ok _ =>
        ({ st2 with closeTick := st2.closeTick + 1, docVar := false,
                    trace := Event.docClosed :: st2.trace,
                    stats := { st2.stats with success := st2.stats.success + 1 } },
          RowExit.next)

/-- Row body between the duplicate-key step and the fill: `idx > 0` reopens
the template fresh from disk (retry-guarded), `idx = 0` reuses the already
open template handle. -/

def processRowOpen (env : BatchEnv) (tipo : String) (row : Row) (idx : Nat)
    (st : WorkerState) (posicao suffix : String) : WorkerState × RowExit :=
  let output_filename := posicao ++ suffix ++ ".dwg"
  let st1 : WorkerState := { st with trace := Event.rowStarted tipo posicao :: st.trace }
  if 0 < idx then
    match env.openResult st1.openTick with
    | Except.error m => ({ st1 with openTick := st1.openTick + 1 }, RowExit.raised m)
    | Except.ok _ =>
        processRowFill env tipo row idx
          { st1 with openTick := st1.openTick + 1, docVar := true }
          posicao output_filename
  else
    processRowFill env tipo row idx { st1 with docVar := true } posicao output_filename

/-- One iteration of the `for idx, (_, row) in enumerate(...)` loop (lines
219-331): cooperative cancel check (on trip: close the template handle
without saving, emit `cancelled`, return), then the duplicate-key step
against the run-scoped `position_counter` (first use of a key registers 1
and leaves the filename unsuffixed; a repeat increments the counter, adds
the `_<n>` suffix and records a `duplicates` event), then the rest of the
row. -/

def processRow (env : BatchEnv) (tipo : String) (row : Row) (idx : Nat)
    (st : WorkerState) : WorkerState × RowExit :=
  if env.cancelFlag st.cancelTick then
    ({ st with cancelTick := st.cancelTick + 1,
               trace := Event.cancelledEmitted :: Event.docCloseNoSave :: st.trace },
      RowExit.cancelledHit)
  else
    let st1 : WorkerState := { st with cancelTick := st.cancelTick + 1 }
    match st1.position_counter.lookup row.posicao with
    | none =>
        processRowOpen env tipo row idx
          { st1 with position_counter := setCount row.posicao 1 st1.position_counter }
          row.posicao ""
    | some n =>
        processRowOpen env tipo row idx
          { st1 with
            position_counter := setCount row.posicao (n + 1) st1.position_counter,
            stats := { st1.stats with
              duplicates := st1.stats.duplicates + 1,
              duplicate_details := st1.stats.duplicate_details ++
                [(row.posicao, row.posicao ++ "_" ++ toString (n + 1))] } }
          row.posicao ("_" ++ toString (n + 1))

/-- The row loop of one group. -/

def rowLoop (env : BatchEnv) (tipo : String) :
    List Row → Nat → WorkerState → WorkerState × RowExit
  | [], _, st => (st, RowExit.next)
  | row :: rest, idx, st =>
    match processRow env tipo row idx st with
    | (st2, RowExit.next) => rowLoop env tipo rest (idx + 1) st2
    | (st2, RowExit.raised m) => (st2, RowExit.raised m)
    | (st2, RowExit.cancelledHit) => (st2, RowExit.cancelledHit)

/-- The `try` block of one group (lines 208-339): open the template
(retry-guarded), run the row loop, then close the template best-effort and
advance `processed_count`. -/

def groupBody (env : BatchEnv) (tipo : String) (rows : List Row)
    (st : WorkerState) : WorkerState × RowExit :=
  match env.openResult st.openTick with
  | Except.error m => ({ st with openTick := st.openTick + 1 }, RowExit.raised m)
  | Except.ok _ =>
    let st1 : WorkerState :=
      { st with openTick := st.openTick + 1, templateDocVar := true,
                trace := Event.docOpened tipo :: st.trace }
    match rowLoop env tipo rows 0 st1 with
    | (st2, RowExit.next) =>
        ({ st2 with templateDocVar := false,
                    trace := Event.docCloseNoSave :: st2.trace,
                    processedCount := st2.processedCount + rows.length },
          RowExit.next)
    | (st2, RowExit.raised m) => (st2, RowExit.raised m)
    | (st2, RowExit.cancelledHit) => (st2, RowExit.cancelledHit)

/-- How one group ends: fall through to the next group, or the whole run
returns because cancellation was observed. -/

inductive GroupExit where
  | done
  | cancelledG

deriving DecidableEq

/-- The worker state on entry to a group's `try` block: the group's cancel
check has been passed (one flag read consumed), the loop variables `doc` and
`template_doc` are reset to `None` (lines 206-207), and the group banner has
been logged. -/

def groupEntryState (st : WorkerState) (tipo : String) : WorkerState :=
  { st with cancelTick := st.cancelTick + 1, docVar := false,
            templateDocVar := false,
            trace := Event.groupStarted tipo :: st.trace }

/-- One iteration of the `for tipo_suporte, group_df in grouped` loop
(lines 183-354): cancel check, template-existence check (a missing template
marks the whole group `template_not_found` without touching the server),
then the `try` body; an exception caught by the group-level `except` marks
every row of the group as an error with the exception text, closes any held
handles best-effort, and falls through to the next group. -/

def processGroup (env : BatchEnv) (tipo : String) (rows : List Row)
    (st : WorkerState) : WorkerState × GroupExit :=
  if env.cancelFlag st.cancelTick then
    ({ st with cancelTick := st.cancelTick + 1,
               trace := Event.cancelledEmitted :: st.trace }, GroupExit.cancelledG)
  else
    let st1 : WorkerState := { st with cancelTick := st.cancelTick + 1 }
    if env.templateExists tipo = false then
      ({ st1 with
          stats := { st1.stats with
            template_not_found := st1.stats.template_not_found + rows.length,
            not_found_details := st1.stats.not_found_details ++
              rows.map (fun r => (r.posicao, tipo)) },
          processedCount := st1.processedCount + rows.length }, GroupExit.done)
    else
      match groupBody env tipo rows (groupEntryState st tipo) with
      | (st3, RowExit.next) => (st3, GroupExit.done)
      | (st3, RowExit.cancelledHit) => (st3, GroupExit.cancelledG)
      | (st3, RowExit.raised m) =>
        let st4 : WorkerState :=
          { st3 with stats := { st3.stats with
              errors := st3.stats.errors + rows.length,
              error_details := st3.stats.error_details ++
                rows.map (fun r => (r.posicao, m)) } }
        let st5 : WorkerState :=
          if st4.docVar then
            { st4 with docVar := false, trace := Event.docCloseNoSave :: st4.trace }
          else st4
        let st6 : WorkerState :=
          if st5.templateDocVar then
            { st5 with templateDocVar := false,
                       trace := Event.docCloseNoSave :: st5.trace }
          else st5
        (st6, GroupExit.done)

/-- The group loop; falling off its end emits the final statistics
(`finished.emit`, line 357), while an observed cancellation ends the run at
once with no further groups or rows processed. -/

def runGroups (env : BatchEnv) :
    List (String × List Row) → WorkerState → WorkerState
  | [], st => { st with trace := Event.finishedEmitted st.stats :: st.trace }
  | (tipo, rows) :: rest, st =>
    match processGroup env tipo rows st with
    | (st2, GroupExit.done) => runGroups env rest st2
    | (st2, GroupExit.cancelledG) => st2

/-- Insertion into a sorted key list (pandas `groupby` yields group keys in
sorted order). -/

def insertSortedKey (k : String) : List String → List String
  | [] => [k]
  | x :: xs => if k ≤ x then k :: x :: xs else x :: insertSortedKey k xs

/-- The distinct `TipoSuporte` values, sorted, as `df.groupby('TipoSuporte')`
iterates them. -/

def sortedKeys (rows : List Row) : List String :=
  ((rows.map Row.tipoSuporte).eraseDups).foldr insertSortedKey []

/-- `df.groupby('TipoSuporte')`: groups in sorted key order, each keeping
the original row order. -/

def makeGroups (rows : List Row) : List (String × List Row) :=
  (sortedKeys rows).map (fun k => (k, rows.filter (fun r => r.tipoSuporte = k)))

/-- Fresh `ProcessingStats` with `total` set (line 165). -/

def initStats (total : Nat) : Stats :=
  { total := total, success := 0, template_not_found := 0, errors := 0,
    no_attributes := 0, duplicates := 0, error_details := [],
    not_found_details := [], no_attributes_details := [], duplicate_details := [] }

/-- Worker state at the top of the group loop. -/

def initState (total : Nat) : WorkerState :=
  { stats := initStats total, position_counter := [], processedCount := 0,
    openTick := 0, saveTick := 0, closeTick := 0, cancelTick := 0,
    docVar := false, templateDocVar := false, trace := [] }

/-- `AutocadWorker.run` from the grouping step onward. -/

def runWorker (env : BatchEnv) (rows : List Row) : WorkerState :=
  runGroups env (makeGroups rows) (initState rows.length)

/-- Environment for the cancellation witness: everything succeeds, and the
cancel flag turns true from its second read onward (set while the first
row was about to start). -/

def envC6 : BatchEnv :=
  { templateExists := fun _ => true, paperSpace := fun _ => [],
    openResult := fun _ => Except.ok (), saveResult := fun _ => Except.ok (),
    closeResult := fun _ => Except.ok (), cancelFlag := fun k => decide (1 ≤ k),
    today := "12/10/2026" }

/-- Environment whose cancel flag is already set at the first read. -/

def envC6pre : BatchEnv :=
  { envC6 with cancelFlag := fun _ => true }

/-- A concrete input row. -/

def rowA1 : Row :=
  ⟨"A1", "X", "10,5", some "1", none, none, none, none, none, none, none⟩

/-- Environment for the C2 witness: the template file exists but every
`Documents.Open` raises (a corrupt template). -/

def envC2 : BatchEnv :=
  { templateExists := fun _ => true, paperSpace := fun _ => [],
    openResult := fun _ => Except.error "template corrupt",
    saveResult := fun _ => Except.ok (), closeResult := fun _ => Except.ok (),
    cancelFlag := fun _ => false, today := "12/10/2026" }

/-- The state in which the C2 witness's group body raises: the open was
attempted once and the group banner logged. -/

def stC2 : WorkerState :=
  { stats := initStats 1, position_counter := [], processedCount := 0,
    openTick := 1, saveTick := 0, closeTick := 0, cancelTick := 1,
    docVar := false, templateDocVar := false,
    trace := [Event.groupStarted "X"] }

/-- Environment for the duplicate-handling witnesses: a template whose
PaperSpace has one attribute-bearing block with a `POSICAO` tag; all calls
succeed. -/

def envC4 : BatchEnv :=
  { templateExists := fun _ => true,
    paperSpace := fun _ => [⟨"AcDbBlockReference", true, [⟨"POSICAO", ""⟩]⟩],
    openResult := fun _ => Except.ok (), saveResult := fun _ => Except.ok (),
    closeResult := fun _ => Except.ok (), cancelFlag := fun _ => false,
    today := "12/10/2026" }

/-- A run state in which key "A1" was already used once. -/

def stDup : WorkerState := { initState 2 with position_counter := [("A1", 1)] }

/-- Environment for the C10 witness: template "X" has an empty PaperSpace
(no attribute-bearing block at all) while template "Y" carries a `POSICAO`
block; every call succeeds and nothing is cancelled. -/

def envC10 : BatchEnv :=
  { templateExists := fun _ => true,
    paperSpace := fun t =>
      if t = "X" then []
      else [⟨"AcDbBlockReference", true, [⟨"POSICAO", ""⟩]⟩],
    openResult := fun _ => Except.ok (), saveResult := fun _ => Except.ok (),
    closeResult := fun _ => Except.ok (), cancelFlag := fun _ => false,
    today := "12/10/2026" }

/-- The same position code in a second template group. -/

def rowA1Y : Row :=
  ⟨"A1", "Y", "10,5", some "1", none, none, none, none, none, none, none⟩

/-! ## Entity scan (`listar_blocos_suporte`, connector lines 187-302) -/

/-- One record produced by the scan (keys of the dict built at lines
270-279). -/

structure SupportRecord where
  tag : String
  tipo : String
  handle : String
  layer : String
  posicaoX : ℚ
  posicaoY : ℚ
  posicaoZ : ℚ
  isDynamic : Bool

deriving DecidableEq

/-- `name.startswith(prefix)` on the character lists (`String.startsWith`
has the same meaning but is not kernel-reducible). -/

def strStartsWith (s pre : String) : Bool :=
  pre.data.isPrefixOf s.data

/-- The attribute loop of lines 252-257: the text of the *first* attribute
whose uppercased tag equals `tag_atributo` (the loop breaks there), `""`
when no attribute matches. -/

def firstTagText (tagAtributo : String) : List AttribRef → String
  | [] => ""
  | a :: rest =>
    if strUpper a.tagString = tagAtributo then a.textString
    else firstTagText tagAtributo rest

/-- The `collect_blocks` closure of `listar_blocos_suporte` (lines 206-295):
index-order walk of the ModelSpace, stage filters in order — (a) entity
category, (b) block-name prefix, (c) has attributes, (d) the first
attribute whose uppercased tag equals `tag_atributo` must have non-empty
text — and materialization of the survivors.  Skip counters and debug
prints carry no data; the per-entity `except: continue` only fires on COM
faults, which this fault-free embedding does not produce. -/

def collect_blocks (tagAtributo prefixoBloco : String) :
    List AcadEntity → List SupportRecord
  | [] => []
  | e :: rest =>
    if e.entityName ≠ "AcDbBlockReference" then
      collect_blocks tagAtributo prefixoBloco rest
    else if ¬ (strStartsWith e.name prefixoBloco = true) then
      collect_blocks tagAtributo prefixoBloco rest
    else if ¬ (e.hasAttributes = true) then
      collect_blocks tagAtributo prefixoBloco rest
    else
      let tagSuporte := firstTagText tagAtributo e.attributes
      if tagSuporte = "" then
        collect_blocks tagAtributo prefixoBloco rest
      else
        ⟨tagSuporte, e.name, e.handle, e.layer, e.posicaoX, e.posicaoY,
          e.posicaoZ, e.isDynamicBlock⟩ :: collect_blocks tagAtributo prefixoBloco rest

/-- The four filter stages exactly as the specification words them —
stage (d) asks for *some* attribute whose tag case-insensitively equals
`identifying_attribute` with non-empty text.  Written from the spec's
words, for comparison with `collect_blocks`. -/

def spec_stage_filter (tagAtributo prefixoBloco : String) (e : AcadEntity) : Bool :=
  e.entityName == "AcDbBlockReference" && strStartsWith e.name prefixoBloco &&
    e.hasAttributes &&
    e.attributes.any (fun a =>
      strUpper a.tagString == strUpper tagAtributo && a.textString != "")

/-- The stages as the code implements them: stage (d) is decided by the
first attribute whose uppercased tag equals `tag_atributo` as given. -/

def code_stage_filter (tagAtributo prefixoBloco : String) (e : AcadEntity) : Bool :=
  if e.entityName ≠ "AcDbBlockReference" then false
  else if ¬ (strStartsWith e.name prefixoBloco = true) then false
  else if ¬ (e.hasAttributes = true) then false
  else if firstTagText tagAtributo e.attributes = "" then false
  else true

/-- The record built for a surviving entity. -/

def mkSupportRecord (tagAtributo : String) (e : AcadEntity) : SupportRecord :=
  ⟨firstTagText tagAtributo e.attributes, e.name, e.handle, e.layer,
    e.posicaoX, e.posicaoY, e.posicaoZ, e.isDynamicBlock⟩

/-- A block reference that passes the spec's four stages — its second
`POSICAO` attribute has non-empty text — but whose *first* `POSICAO`
attribute has empty text. -/

def entC7 : AcadEntity :=
  { entityName := "AcDbBlockReference", name := "SP_01", handle := "2F1",
    layer := "0", posicaoX := 0, posicaoY := 0, posicaoZ := 0,
    isDynamicBlock := false, hasAttributes := true,
    attributes := [⟨"POSICAO", ""⟩, ⟨"POSICAO", "A1"⟩], dynProps := [] }

/-- Unfolding step: a successful attempt returns the value at once. -/
theorem execFrom_step_ok {α : Type} (op : Nat → AttemptResult α) (name : String)
    (retries n attempt : Nat) (log : List COMErrorInfo) (a : α)
    (h : op attempt = .ok a) :
    execFrom op name retries (n + 1) attempt log = (log, Except.ok a) := by
  rw [execFrom, h]

/-- Unfolding step: a recoverable failure before the last attempt logs the
fault and retries. -/
theorem execFrom_step_retry {α : Type} (op : Nat → AttemptResult α) (name : String)
    (retries n attempt : Nat) (log : List COMErrorInfo) (f : COMFault)
    (h : op attempt = .err f) (hr : is_recoverable_com_error f = true)
    (hlt : attempt < retries) :
    execFrom op name retries (n + 1) attempt log
      = execFrom op name retries n (attempt + 1) (log ++ [⟨attempt, name, f⟩]) := by
  rw [execFrom, h]
  simp [hr, hlt]

/-- Unfolding step: a non-recoverable failure, or a failure on the final
attempt, logs the fault and re-raises it. -/
theorem execFrom_step_raise {α : Type} (op : Nat → AttemptResult α) (name : String)
    (retries n attempt : Nat) (log : List COMErrorInfo) (f : COMFault)
    (h : op attempt = .err f)
    (hstop : is_recoverable_com_error f = false ∨ retries ≤ attempt) :
    execFrom op name retries (n + 1) attempt log
      = (log ++ [⟨attempt, name, f⟩], Except.error (RunException.fault f)) := by
  rw [execFrom, h]
  rcases hstop with h2 | h2
  · simp [h2]
  · have : ¬ attempt < retries := by omega
    simp [this]

/-- C1 counterexample: for `max_attempts = 3` and an operation that raises a
transient fault on the first two attempts and succeeds on the third,
`execute_with_retry` does return the success value, but the attempt log
gains only 2 entries (the two failures) — not 3 as the claim states,
because a successful attempt is never appended to the log. -/
theorem C1_counterexample :
    (execute_with_retry opC1 "Operation" 3 []).2 = Except.ok 42 ∧
      ¬ (execute_with_retry opC1 "Operation" 3 []).1.length = 3 := by
  decide

/-- C1 amended: only failed attempts are appended to the retry attempt log;
for an executor with `max_attempts ≥ 3` and an operation that raises a
transient fault on attempts 1 and 2 and succeeds on attempt 3, `execute`
returns the success value and appends exactly the 2 failure entries to the
log. -/
theorem C1_amended {α : Type} (op : Nat → AttemptResult α) (name : String)
    (retries : Nat) (log : List COMErrorInfo) (f1 f2 : COMFault) (v : α)
    (hr : 3 ≤ retries)
    (h1 : op 1 = .err f1) (h1r : is_recoverable_com_error f1 = true)
    (h2 : op 2 = .err f2) (h2r : is_recoverable_com_error f2 = true)
    (h3 : op 3 = .ok v) :
    execute_with_retry op name retries log =
      (log ++ [⟨1, name, f1⟩, ⟨2, name, f2⟩], Except.ok v) := by
  obtain ⟨k, rfl⟩ : ∃ k, retries = k + 3 := ⟨retries - 3, by omega⟩
  calc execute_with_retry op name (k + 3) log
      = execFrom op name (k + 3) ((k + 2) + 1) 1 log := rfl
    _ = execFrom op name (k + 3) ((k + 1) + 1) 2 (log ++ [⟨1, name, f1⟩]) :=
        execFrom_step_retry op name (k + 3) (k + 2) 1 log f1 h1 h1r (by omega)
    _ = execFrom op name (k + 3) (k + 1) 3
          ((log ++ [⟨1, name, f1⟩]) ++ [⟨2, name, f2⟩]) :=
        execFrom_step_retry op name (k + 3) (k + 1) 2 _ f2 h2 h2r (by omega)
    _ = ((log ++ [⟨1, name, f1⟩]) ++ [⟨2, name, f2⟩], Except.ok v) :=
        execFrom_step_ok op name (k + 3) k 3 _ v h3
    _ = (log ++ [⟨1, name, f1⟩, ⟨2, name, f2⟩], Except.ok v) := by simp

/-- C1 amended witness: the concrete scenario of the claim, evaluated. -/
theorem C1_amended_witness :
    execute_with_retry opC1 "Operation" 3 [] =
      ([⟨1, "Operation", COMFault.comError RPC_E_CALL_REJECTED⟩,
        ⟨2, "Operation", COMFault.comError RPC_E_CALL_REJECTED⟩], Except.ok 42) := by
  have := C1_amended opC1 "Operation" 3 []
    (COMFault.comError RPC_E_CALL_REJECTED) (COMFault.comError RPC_E_CALL_REJECTED) 42
    (by decide) (by decide) (by decide) (by decide) (by decide) (by decide)
  simpa using this

/-- C3 counterexample: with `max_attempts = 3` and an operation that raises
a transient (busy) fault on every attempt, exhausting the attempts
re-raises the last underlying `com_error` itself; the failure is not the
generic "Operation falhou após 3 tentativas" exception. -/
theorem C3_counterexample :
    (execute_with_retry opC3 "Operation" 3 []).2 =
        Except.error (RunException.fault (COMFault.comError RPC_E_CALL_REJECTED)) ∧
      ¬ (execute_with_retry opC3 "Operation" 3 []).2 =
        Except.error (RunException.generic "Operation" 3) := by
  decide

/-- Helper for C3: if every attempt from `attempt` to `retries` fails with a
recoverable fault, the loop ends by re-raising the fault of attempt
`retries`. -/
theorem execFrom_all_recoverable {α : Type} (op : Nat → AttemptResult α)
    (name : String) (retries : Nat) :
    ∀ (n attempt : Nat) (log : List COMErrorInfo),
      attempt + n = retries → 1 ≤ attempt →
      (∀ k, attempt ≤ k → k ≤ retries →
        ∃ f, op k = .err f ∧ is_recoverable_com_error f = true) →
      ∃ f, op retries = .err f ∧
        (execFrom op name retries (n + 1) attempt log).2 =
          Except.error (RunException.fault f) := by
  intro n
  induction n with
  | zero =>
    intro attempt log hsum h1 hall
    have heq : attempt = retries := by omega
    subst heq
    obtain ⟨f, hf, hfr⟩ := hall attempt le_rfl le_rfl
    refine ⟨f, hf, ?_⟩
    rw [execFrom_step_raise op name attempt 0 attempt log f hf (Or.inr le_rfl)]
  | succ n ih =>
    intro attempt log hsum h1 hall
    obtain ⟨f, hf, hfr⟩ := hall attempt le_rfl (by omega)
    have hlt : attempt < retries := by omega
    obtain ⟨g, hg, hrest⟩ :=
      ih (attempt + 1) (log ++ [⟨attempt, name, f⟩]) (by omega) (by omega)
        (fun k hk1 hk2 => hall k (by omega) hk2)
    refine ⟨g, hg, ?_⟩
    rw [execFrom_step_retry op name retries (n + 1) attempt log f hf hfr hlt]
    exact hrest

/-- C3 amended: when the retry executor exhausts all of its `max_attempts`
attempts on transient (busy) faults, the failure raised to the caller is
the last underlying fault itself, re-raised directly rather than wrapped;
the generic "operation failed after N attempts" failure occurs only when
`max_attempts` is zero, and then it wraps no fault at all. -/
theorem C3_amended :
    (∀ (α : Type) (op : Nat → AttemptResult α) (name : String) (retries : Nat)
      (log : List COMErrorInfo),
      1 ≤ retries →
      (∀ k, 1 ≤ k → k ≤ retries →
        ∃ f, op k = .err f ∧ is_recoverable_com_error f = true) →
      ∃ f, op retries = .err f ∧
        (execute_with_retry op name retries log).2 =
          Except.error (RunException.fault f)) ∧
    (∀ (α : Type) (op : Nat → AttemptResult α) (name : String)
      (log : List COMErrorInfo),
      execute_with_retry op name 0 log =
        (log, Except.error (RunException.generic name 0))) := by
  constructor
  · intro α op name retries log hr hall
    obtain ⟨k, hk⟩ : ∃ k, retries = k + 1 := ⟨retries - 1, by omega⟩
    have h := execFrom_all_recoverable op name retries k 1 log (by omega) le_rfl hall
    rw [execute_with_retry, hk]
    rw [hk] at h
    exact h
  · intro α op name log
    rfl

/-- C3 amended witness: a concrete all-transient operation with
`max_attempts = 3`. -/
theorem C3_amended_witness :
    ∃ f, opC3 3 = .err f ∧
      (execute_with_retry opC3 "Operation" 3 []).2 =
        Except.error (RunException.fault f) := by
  exact C3_amended.1 Nat opC3 "Operation" 3 [] (by decide)
    (fun k _ _ => ⟨COMFault.comError RPC_E_CALL_REJECTED, rfl, by decide⟩)

/-- When no property carries the name, the inner loop falls through. -/
theorem updateDynProps_none (nome : String) (nv : PyValue) :
    ∀ props : List DynProp, findDynProp nome props = none →
      updateDynProps nome nv props = none := by
  intro props
  induction props with
  | nil => intro _; rfl
  | cons p rest ih =>
    intro h
    rw [findDynProp] at h
    rw [updateDynProps]
    by_cases hp : p.propertyName = nome
    · simp [hp] at h
    · simp only [if_neg hp] at h ⊢
      rw [ih h]

/-- Inner-loop behaviour on an out-of-range numeric value: validation fails
and the property list is returned untouched. -/
theorem updateDynProps_out_of_range (nome : String) (nv : PyValue)
    (vmin vmax v : ℚ) (p : DynProp)
    (hmin : p.valueMinimum = some vmin) (hmax : p.valueMaximum = some vmax)
    (hv : tryFloat nv = some v) (hout : ¬ (vmin ≤ v ∧ v ≤ vmax)) :
    ∀ props : List DynProp, findDynProp nome props = some p →
      updateDynProps nome nv props =
        some (props, false, UpdateMsg.foraDosLimites nv vmin vmax) := by
  intro props
  induction props with
  | nil => intro h; simp [findDynProp] at h
  | cons q rest ih =>
    intro h
    rw [findDynProp] at h
    rw [updateDynProps]
    by_cases hq : q.propertyName = nome
    · simp only [if_pos hq] at h ⊢
      obtain rfl : q = p := by simpa using h
      rw [hmin, hmax, hv]
      simp [hout]
    · simp only [if_neg hq] at h ⊢
      rw [ih h]

/-- Inner-loop behaviour on a value `float()` rejects: the bounds check is
skipped and the first matching property is overwritten. -/
theorem updateDynProps_nonNum (nome : String) (nv : PyValue) (p : DynProp)
    (hv : tryFloat nv = none) :
    ∀ props : List DynProp, findDynProp nome props = some p →
      ∃ props2, updateDynProps nome nv props =
          some (props2, true, UpdateMsg.atualizadaComSucesso) ∧
        findDynProp nome props2 = some { p with value := nv } := by
  intro props
  induction props with
  | nil => intro h; simp [findDynProp] at h
  | cons q rest ih =>
    intro h
    rw [findDynProp] at h
    rw [updateDynProps]
    by_cases hq : q.propertyName = nome
    · simp only [if_pos hq] at h ⊢
      obtain rfl : p = q := by simpa using h.symm
      refine ⟨{ p with value := nv } :: rest, ?_, ?_⟩
      · cases hpmin : p.valueMinimum with
        | none => simp
        | some vmin =>
          cases hpmax : p.valueMaximum with
          | none => simp
          | some vmax => rw [hv]
      · rw [findDynProp]
        simp [hq]
    · simp only [if_neg hq] at h ⊢
      obtain ⟨props2, h1, h2⟩ := ih h
      refine ⟨q :: props2, ?_, ?_⟩
      · rw [h1]
      · rw [findDynProp]
        simp only [if_neg hq]
        exact h2

/-- Outer-loop behaviour on an out-of-range numeric value: the whole
ModelSpace is returned unchanged with the validation-fault message. -/
theorem update_prop_out_of_range (handle nome : String) (nv : PyValue)
    (vmin vmax v : ℚ) (p : DynProp)
    (hmin : p.valueMinimum = some vmin) (hmax : p.valueMaximum = some vmax)
    (hv : tryFloat nv = some v) (hout : ¬ (vmin ≤ v ∧ v ≤ vmax)) :
    ∀ ms : List AcadEntity, findProp handle nome ms = some p →
      update_prop handle nome nv ms =
        (ms, false, UpdateMsg.foraDosLimites nv vmin vmax) := by
  intro ms
  induction ms with
  | nil => intro h; simp [findProp] at h
  | cons e rest ih =>
    intro h
    rw [findProp] at h
    rw [update_prop]
    by_cases he : e.entityName = "AcDbBlockReference" ∧ e.handle = handle
    · simp only [if_pos he] at h ⊢
      cases hfd : findDynProp nome e.dynProps with
      | some q =>
        rw [hfd] at h
        obtain rfl : p = q := by simpa using h.symm
        rw [updateDynProps_out_of_range nome nv vmin vmax v p hmin hmax hv hout
              e.dynProps hfd]
      | none =>
        rw [hfd] at h
        rw [updateDynProps_none nome nv e.dynProps hfd]
        simp only
        rw [ih h]
    · simp only [if_neg he] at h ⊢
      rw [ih h]

/-- Outer-loop behaviour on a value `float()` rejects: the write goes
through, reported as success, and the located property now stores the new
value. -/
theorem update_prop_nonNum (handle nome : String) (nv : PyValue) (p : DynProp)
    (hv : tryFloat nv = none) :
    ∀ ms : List AcadEntity, findProp handle nome ms = some p →
      ∃ ms2, update_prop handle nome nv ms =
          (ms2, true, UpdateMsg.atualizadaComSucesso) ∧
        findProp handle nome ms2 = some { p with value := nv } := by
  intro ms
  induction ms with
  | nil => intro h; simp [findProp] at h
  | cons e rest ih =>
    intro h
    rw [findProp] at h
    rw [update_prop]
    by_cases he : e.entityName = "AcDbBlockReference" ∧ e.handle = handle
    · simp only [if_pos he] at h ⊢
      cases hfd : findDynProp nome e.dynProps with
      | some q =>
        rw [hfd] at h
        obtain rfl : p = q := by simpa using h.symm
        obtain ⟨props2, h1, h2⟩ := updateDynProps_nonNum nome nv p hv e.dynProps hfd
        refine ⟨{ e with dynProps := props2 } :: rest, ?_, ?_⟩
        · rw [h1]
        · rw [findProp]
          simp only [if_pos he, h2]
      | none =>
        rw [hfd] at h
        rw [updateDynProps_none nome nv e.dynProps hfd]
        obtain ⟨ms2, h1, h2⟩ := ih h
        refine ⟨e :: ms2, ?_, ?_⟩
        · simp only
          rw [h1]
        · rw [findProp]
          simp only [if_pos he, hfd, h2]
    · simp only [if_neg he] at h ⊢
      obtain ⟨ms2, h1, h2⟩ := ih h
      refine ⟨e :: ms2, ?_, ?_⟩
      · rw [h1]
      · rw [findProp]
        simp only [if_neg he]
        exact h2

/-- C5: a property write whose target declares both bounds and whose value
parses as a number is range-checked inclusively before any write; an
out-of-range value yields the validation failure (a message distinct from
not-found), the ModelSpace is unchanged, and a read after the failed write
equals the pre-write value. -/
theorem C5_bounds_checked (handle nome : String) (nv : PyValue)
    (ms : List AcadEntity) (p : DynProp) (vmin vmax v : ℚ)
    (hfind : findProp handle nome ms = some p)
    (hmin : p.valueMinimum = some vmin) (hmax : p.valueMaximum = some vmax)
    (hv : tryFloat nv = some v) (hout : ¬ (vmin ≤ v ∧ v ≤ vmax)) :
    update_prop handle nome nv ms =
        (ms, false, UpdateMsg.foraDosLimites nv vmin vmax) ∧
      UpdateMsg.foraDosLimites nv vmin vmax ≠ UpdateMsg.naoEncontrada ∧
      get_props handle (update_prop handle nome nv ms).1 = get_props handle ms := by
  have h := update_prop_out_of_range handle nome nv vmin vmax v p hmin hmax hv hout ms hfind
  refine ⟨h, by simp, by rw [h]⟩

/-- C5 witness: one bounded property with `minimum = 0`, `maximum = 100`
and the write value 150. -/
theorem C5_bounds_checked_witness :
    update_prop "H1" "Distance" (PyValue.num 150)
        [⟨"AcDbBlockReference", "SP_01", "H1", "0", 0, 0, 0, true, true, [],
          [⟨"Distance", PyValue.num 5, true, false, some 0, some 100⟩]⟩] =
      ([⟨"AcDbBlockReference", "SP_01", "H1", "0", 0, 0, 0, true, true, [],
          [⟨"Distance", PyValue.num 5, true, false, some 0, some 100⟩]⟩],
        false, UpdateMsg.foraDosLimites (PyValue.num 150) 0 100) := by
  exact (C5_bounds_checked "H1" "Distance" (PyValue.num 150) _
    ⟨"Distance", PyValue.num 5, true, false, some 0, some 100⟩ 0 100 150
    (by decide) rfl rfl rfl (by norm_num)).1

/-- C9: when the target property declares bounds but the new value cannot be
parsed as a number (`float` raises), the bounds check is silently skipped,
the write proceeds and reports success, and the stored value becomes the
non-numeric value. -/
theorem C9_nonnumeric_bypasses_bounds (handle nome : String) (nv : PyValue)
    (ms : List AcadEntity) (p : DynProp)
    (hfind : findProp handle nome ms = some p)
    (hmin : p.valueMinimum.isSome = true) (hmax : p.valueMaximum.isSome = true)
    (hv : tryFloat nv = none) :
    ∃ ms2, update_prop handle nome nv ms =
        (ms2, true, UpdateMsg.atualizadaComSucesso) ∧
      findProp handle nome ms2 = some { p with value := nv } := by
  exact update_prop_nonNum handle nome nv p hv ms hfind

/-- C9 witness: a bounded property written with a non-numeric string. -/
theorem C9_nonnumeric_bypasses_bounds_witness :
    ∃ ms2, update_prop "H1" "Distance" (PyValue.nonNum "abc")
        [⟨"AcDbBlockReference", "SP_01", "H1", "0", 0, 0, 0, true, true, [],
          [⟨"Distance", PyValue.num 5, true, false, some 0, some 100⟩]⟩] =
        (ms2, true, UpdateMsg.atualizadaComSucesso) ∧
      findProp "H1" "Distance" ms2 =
        some ⟨"Distance", PyValue.nonNum "abc", true, false, some 0, some 100⟩ := by
  exact C9_nonnumeric_bypasses_bounds "H1" "Distance" (PyValue.nonNum "abc") _
    ⟨"Distance", PyValue.num 5, true, false, some 0, some 100⟩ rfl rfl rfl rfl

/-- C8: with a held server handle, `ensure_valid` succeeds immediately
(state untouched) when the cheap version probe answers; on a probe fault it
clears the document/model handles and attempts exactly one silent re-attach
to an already-running instance, which succeeds — rebinding all three
handles — precisely when such an instance exists and has at least one open
document, and it reports false (document and model handles left cleared)
whenever that re-attach fails. -/
theorem C8_ensure_valid (w : COMWorld) (s : ConnectorState) (h : ServerHandle)
    (hheld : s.acad = some h) :
    (w.versionProbeOk h = true → ensure_valid_connection w s = (s, true)) ∧
    (w.versionProbeOk h = false →
      ((ensure_valid_connection w s).2 = true ↔
        ∃ h2, w.activeObject = some h2 ∧ 0 < w.documentsCount h2) ∧
      (∀ h2, w.activeObject = some h2 → 0 < w.documentsCount h2 →
        ensure_valid_connection w s =
          ({ acad := some h2, acadDoc := some (w.activeDocument h2),
             acadModel := some (w.modelSpaceOf (w.activeDocument h2)),
             isInitialized := true }, true)) ∧
      ((ensure_valid_connection w s).2 = false →
        (ensure_valid_connection w s).1.acadDoc = none ∧
        (ensure_valid_connection w s).1.acadModel = none)) := by
  constructor
  · intro hp
    rw [ensure_valid_connection, hheld]
    simp [hp]
  · intro hp
    refine ⟨?_, ?_, ?_⟩
    · rw [ensure_valid_connection, hheld]
      simp only [hp]
      cases hao : w.activeObject with
      | none => simp
      | some h2 =>
        by_cases hc : 0 < w.documentsCount h2
        · simp [hc]
        · simp [hc]
    · intro h2 hao hc
      rw [ensure_valid_connection, hheld]
      simp [hp, hao, hc]
    · intro hfail
      rw [ensure_valid_connection, hheld] at hfail ⊢
      simp only [hp] at hfail ⊢
      cases hao : w.activeObject with
      | none => simp [cleanupState]
      | some h2 =>
        rw [hao] at hfail
        by_cases hc : 0 < w.documentsCount h2
        · simp [hc] at hfail
        · simp [hc, cleanupState]

/-- C8 witness: a probe fault with a running instance that has one open
document; the re-attach silently rebinds the session. -/
theorem C8_ensure_valid_witness :
    ensure_valid_connection
        { versionProbeOk := fun _ => false, activeObject := some 7,
          documentsCount := fun _ => 1, activeDocument := fun _ => 3,
          modelSpaceOf := fun _ => 4 }
        { acad := some 5, acadDoc := some 1, acadModel := some 2,
          isInitialized := true } =
      ({ acad := some 7, acadDoc := some 3, acadModel := some 4,
         isInitialized := true }, true) := by
  exact (C8_ensure_valid _ _ 5 rfl).2 rfl |>.2.1 7 rfl (by decide)

/-- C6: cooperative cancellation.  First conjunct (group checkpoint): if the
flag read at the start of a group is true, the run ends immediately — the
cancel notification is emitted, no document is opened and nothing of this
group or any later group is processed or written (the final state does not
depend on the group's rows or on the remaining groups, and the statistics
are untouched).  Second conjunct (row checkpoint): if the group's check
passes, the template exists and opens, and the flag read at the start of
the first row is true, the run ends with the open template handle closed
without saving (`Close(False)`) followed by the cancel notification, no row
of this or any later group processed, and no file saved. -/
theorem C6_cancellation (env : BatchEnv) (tipo : String) (row : Row)
    (rows : List Row) (rest : List (String × List Row)) (st : WorkerState) :
    (env.cancelFlag st.cancelTick = true →
      runGroups env ((tipo, rows) :: rest) st =
        { st with cancelTick := st.cancelTick + 1,
                  trace := Event.cancelledEmitted :: st.trace }) ∧
    (env.cancelFlag st.cancelTick = false →
      env.templateExists tipo = true →
      env.openResult st.openTick = Except.ok () →
      env.cancelFlag (st.cancelTick + 1) = true →
      runGroups env ((tipo, row :: rows) :: rest) st =
        { st with cancelTick := st.cancelTick + 1 + 1, openTick := st.openTick + 1,
                  docVar := false, templateDocVar := true,
                  trace := Event.cancelledEmitted :: Event.docCloseNoSave ::
                    Event.docOpened tipo :: Event.groupStarted tipo :: st.trace }) := by
  constructor
  · intro h
    simp [runGroups, processGroup, h]
  · intro h1 h2 h3 h4
    simp [runGroups, processGroup, groupBody, groupEntryState, rowLoop, processRow,
      h1, h2, h3, h4]

/-- C6 witness: both checkpoints exercised concretely — a flag already set
at the group checkpoint stops the run before anything is opened, and a flag
set between the group and row checkpoints closes the template without
saving and stops the run. -/
theorem C6_cancellation_witness :
    runGroups envC6pre [("X", [rowA1])] (initState 1) =
      { initState 1 with cancelTick := 1,
                         trace := [Event.cancelledEmitted] } ∧
    runGroups envC6 [("X", [rowA1])] (initState 1) =
      { initState 1 with cancelTick := 2, openTick := 1,
                         docVar := false, templateDocVar := true,
                         trace := [Event.cancelledEmitted, Event.docCloseNoSave,
                           Event.docOpened "X", Event.groupStarted "X"] } :=
  ⟨(C6_cancellation envC6pre "X" rowA1 [rowA1] [] (initState 1)).1 rfl,
   (C6_cancellation envC6 "X" rowA1 [] [] (initState 1)).2 rfl rfl rfl rfl⟩

/-- The row body after the duplicate step never touches `error_details`. -/
theorem processRowFill_error_details (env : BatchEnv) (tipo : String) (row : Row)
    (idx : Nat) (st : WorkerState) (posicao ofn : String) :
    ((processRowFill env tipo row idx st posicao ofn).1).stats.error_details
      = st.stats.error_details := by
  by_cases hf : (fill_attributes (attribute_mapping env.today tipo row)
        (env.paperSpace tipo)).2.2 = false ∨
      (fill_attributes (attribute_mapping env.today tipo row)
        (env.paperSpace tipo)).2.1 = 0
  · simp [processRowFill, hf]
  · cases hs : env.saveResult st.saveTick with
    | error m => simp [processRowFill, hf, hs]
    | ok u =>
      cases hcl : env.closeResult st.closeTick with
      | error m => simp [processRowFill, hf, hs, hcl]
      | ok u2 => simp [processRowFill, hf, hs, hcl]

/-- The open/reuse step never touches `error_details`. -/
theorem processRowOpen_error_details (env : BatchEnv) (tipo : String) (row : Row)
    (idx : Nat) (st : WorkerState) (posicao suffix : String) :
    ((processRowOpen env tipo row idx st posicao suffix).1).stats.error_details
      = st.stats.error_details := by
  by_cases hidx : 0 < idx
  · cases ho : env.openResult st.openTick with
    | error m => simp [processRowOpen, hidx, ho]
    | ok u =>
      have h1 := processRowFill_error_details env tipo row idx
        { st with openTick := st.openTick + 1, docVar := true,
                  trace := Event.rowStarted tipo posicao :: st.trace }
        posicao (posicao ++ suffix ++ ".dwg")
      simpa [processRowOpen, hidx, ho] using h1
  · have h2 := processRowFill_error_details env tipo row idx
      { st with docVar := true, trace := Event.rowStarted tipo posicao :: st.trace }
      posicao (posicao ++ suffix ++ ".dwg")
    simpa [processRowOpen, hidx] using h2

/-- One row never touches `error_details`. -/
theorem processRow_error_details (env : BatchEnv) (tipo : String) (row : Row)
    (idx : Nat) (st : WorkerState) :
    ((processRow env tipo row idx st).1).stats.error_details
      = st.stats.error_details := by
  by_cases hc : env.cancelFlag st.cancelTick = true
  · simp [processRow, hc]
  · cases hl : List.lookup row.posicao st.position_counter with
    | none =>
      have h1 := processRowOpen_error_details env tipo row idx
        { st with cancelTick := st.cancelTick + 1,
                  position_counter := setCount row.posicao 1 st.position_counter }
        row.posicao ""
      simpa [processRow, hc, hl] using h1
    | some n =>
      have h1 := processRowOpen_error_details env tipo row idx
        { st with cancelTick := st.cancelTick + 1,
                  position_counter := setCount row.posicao (n + 1) st.position_counter,
                  stats := { st.stats with
                    duplicates := st.stats.duplicates + 1,
                    duplicate_details := st.stats.duplicate_details ++
                      [(row.posicao, row.posicao ++ "_" ++ toString (n + 1))] } }
        row.posicao ("_" ++ toString (n + 1))
      simpa [processRow, hc, hl] using h1

/-- The row loop never touches `error_details`. -/
theorem rowLoop_error_details (env : BatchEnv) (tipo : String) :
    ∀ (rows : List Row) (idx : Nat) (st : WorkerState),
      ((rowLoop env tipo rows idx st).1).stats.error_details
        = st.stats.error_details := by
  intro rows
  induction rows with
  | nil => intro idx st; rfl
  | cons row rest ih =>
    intro idx st
    have hr := processRow_error_details env tipo row idx st
    rw [rowLoop]
    cases hp : processRow env tipo row idx st with
    | mk st2 e =>
      rw [hp] at hr
      cases e
      · rw [ih (idx + 1) st2, hr]
      · exact hr
      · exact hr

/-- The group `try` body never touches `error_details`. -/
theorem groupBody_error_details (env : BatchEnv) (tipo : String)
    (rows : List Row) (st : WorkerState) :
    ((groupBody env tipo rows st).1).stats.error_details
      = st.stats.error_details := by
  unfold groupBody
  cases ho : env.openResult st.openTick with
  | error m => rfl
  | ok u =>
    cases hl : rowLoop env tipo rows 0
        { st with openTick := st.openTick + 1, templateDocVar := true,
                  trace := Event.docOpened tipo :: st.trace } with
    | mk st2 e =>
      have hr := rowLoop_error_details env tipo rows 0
        { st with openTick := st.openTick + 1, templateDocVar := true,
                  trace := Event.docOpened tipo :: st.trace }
      rw [hl] at hr
      cases e <;> simp [hl] <;> simpa using hr

/-- One group only ever appends to `error_details`. -/
theorem processGroup_error_details_mono (env : BatchEnv) (tipo : String)
    (rows : List Row) (st : WorkerState) :
    ∃ l, ((processGroup env tipo rows st).1).stats.error_details
      = st.stats.error_details ++ l := by
  by_cases hc : env.cancelFlag st.cancelTick = true
  · exact ⟨[], by simp [processGroup, hc]⟩
  · by_cases ht : env.templateExists tipo = false
    · exact ⟨[], by simp [processGroup, hc, ht]⟩
    · have hgb := groupBody_error_details env tipo rows (groupEntryState st tipo)
      cases hb : groupBody env tipo rows (groupEntryState st tipo) with
      | mk st3 e =>
        rw [hb] at hgb
        have hgb2 : st3.stats.error_details = st.stats.error_details := by
          simpa [groupEntryState] using hgb
        cases e with
        | next => exact ⟨[], by simp [processGroup, hc, ht, hb, hgb2]⟩
        | cancelledHit => exact ⟨[], by simp [processGroup, hc, ht, hb, hgb2]⟩
        | raised m =>
          refine ⟨rows.map (fun r => (r.posicao, m)), ?_⟩
          by_cases hd : st3.docVar = true <;>
            by_cases htd : st3.templateDocVar = true <;>
            simp [processGroup, hc, ht, hb, hd, htd, hgb2]

/-- A whole run only ever appends to `error_details`. -/
theorem runGroups_error_details_mono (env : BatchEnv) :
    ∀ (groups : List (String × List Row)) (st : WorkerState),
      ∃ l, (runGroups env groups st).stats.error_details
        = st.stats.error_details ++ l := by
  intro groups
  induction groups with
  | nil => intro st; exact ⟨[], by simp [runGroups]⟩
  | cons g rest ih =>
    intro st
    obtain ⟨tipo, rows⟩ := g
    obtain ⟨l1, hl1⟩ := processGroup_error_details_mono env tipo rows st
    cases hp : processGroup env tipo rows st with
    | mk st2 e =>
      rw [hp] at hl1
      cases e with
      | done =>
        obtain ⟨l2, hl2⟩ := ih st2
        refine ⟨l1 ++ l2, ?_⟩
        simp only [runGroups, hp]
        rw [hl2, hl1, List.append_assoc]
      | cancelledG =>
        refine ⟨l1, ?_⟩
        simp only [runGroups, hp]
        exact hl1

/-- The group-level `except` handler (lines 341-354): when the `try` body
raises, the group falls through as `done` with every row of the group
appended to `error_details` (with the exception text), the error counter
advanced by the group size, and both handle variables cleared by the
best-effort closes. -/
theorem processGroup_raised (env : BatchEnv) (tipo : String) (rows : List Row)
    (st st1 : WorkerState) (m : String)
    (hc : env.cancelFlag st.cancelTick = false)
    (ht : env.templateExists tipo = true)
    (hb : groupBody env tipo rows (groupEntryState st tipo)
      = (st1, RowExit.raised m)) :
    (processGroup env tipo rows st).2 = GroupExit.done ∧
      ((processGroup env tipo rows st).1).stats.errors
        = st1.stats.errors + rows.length ∧
      ((processGroup env tipo rows st).1).stats.error_details
        = st1.stats.error_details ++ rows.map (fun r => (r.posicao, m)) ∧
      ((processGroup env tipo rows st).1).docVar = false ∧
      ((processGroup env tipo rows st).1).templateDocVar = false := by
  have hc2 : ¬ env.cancelFlag st.cancelTick = true := by simp [hc]
  have ht2 : ¬ env.templateExists tipo = false := by simp [ht]
  by_cases hd : st1.docVar = true <;> by_cases htd : st1.templateDocVar = true <;>
    exact ⟨by simp [processGroup, hc2, ht2, hb, hd, htd],
      by simp [processGroup, hc2, ht2, hb, hd, htd],
      by simp [processGroup, hc2, ht2, hb, hd, htd],
      by simp [processGroup, hc2, ht2, hb, hd, htd],
      by simp [processGroup, hc2, ht2, hb, hd, htd]⟩

/-- C2: per-group error isolation.  If an exception with text `m` escapes
while the pipeline is processing one template group (its `try` body ends
`raised m` — e.g. the template fails to open, or a save/close throws),
then: the run continues with the remaining groups from the handler's state;
every row of the group — in particular every remaining row — is marked in
the errors category with the exception text (the group's error counter
grows by the group size and each row's `(posicao, m)` detail survives to
the final statistics); and both document-handle variables are cleared by
the best-effort closes. -/
theorem C2_group_error_isolation (env : BatchEnv) (tipo : String)
    (rows : List Row) (rest : List (String × List Row)) (st st1 : WorkerState)
    (m : String)
    (hc : env.cancelFlag st.cancelTick = false)
    (ht : env.templateExists tipo = true)
    (hb : groupBody env tipo rows (groupEntryState st tipo)
      = (st1, RowExit.raised m)) :
    runGroups env ((tipo, rows) :: rest) st
        = runGroups env rest (processGroup env tipo rows st).1 ∧
      ((processGroup env tipo rows st).1).stats.errors
        = st1.stats.errors + rows.length ∧
      ((processGroup env tipo rows st).1).stats.error_details
        = st1.stats.error_details ++ rows.map (fun r => (r.posicao, m)) ∧
      ((processGroup env tipo rows st).1).docVar = false ∧
      ((processGroup env tipo rows st).1).templateDocVar = false ∧
      ∀ r ∈ rows, (r.posicao, m)
        ∈ (runGroups env ((tipo, rows) :: rest) st).stats.error_details := by
  obtain ⟨he, herr, hdet, hdv, htv⟩ :=
    processGroup_raised env tipo rows st st1 m hc ht hb
  have hcons : runGroups env ((tipo, rows) :: rest) st
      = runGroups env rest (processGroup env tipo rows st).1 := by
    cases hpg : processGroup env tipo rows st with
    | mk st2 e =>
      rw [hpg] at he
      cases e with
      | done => simp [runGroups, hpg]
      | cancelledG => simp at he
  refine ⟨hcons, herr, hdet, hdv, htv, ?_⟩
  intro r hr
  rw [hcons]
  obtain ⟨l, hl⟩ :=
    runGroups_error_details_mono env rest (processGroup env tipo rows st).1
  rw [hl, hdet]
  refine List.mem_append.2 (Or.inl (List.mem_append.2 (Or.inr ?_)))
  exact List.mem_map_of_mem _ hr

/-- C2 witness: one group whose template fails to open; its row lands in
the error details and the run still reaches the final statistics. -/
theorem C2_group_error_isolation_witness :
    runGroups envC2 [("X", [rowA1])] (initState 1)
        = runGroups envC2 [] (processGroup envC2 "X" [rowA1] (initState 1)).1 ∧
      ((processGroup envC2 "X" [rowA1] (initState 1)).1).stats.errors
        = stC2.stats.errors + [rowA1].length ∧
      ((processGroup envC2 "X" [rowA1] (initState 1)).1).stats.error_details
        = stC2.stats.error_details
            ++ [rowA1].map (fun r => (r.posicao, "template corrupt")) ∧
      ((processGroup envC2 "X" [rowA1] (initState 1)).1).docVar = false ∧
      ((processGroup envC2 "X" [rowA1] (initState 1)).1).templateDocVar = false ∧
      ∀ r ∈ [rowA1], (r.posicao, "template corrupt")
        ∈ (runGroups envC2 [("X", [rowA1])] (initState 1)).stats.error_details :=
  C2_group_error_isolation envC2 "X" [rowA1] [] (initState 1) stC2
    "template corrupt" rfl rfl rfl

/-- Looking up a key right after setting it yields the set value. -/
theorem setCount_lookup (k : String) (v : Nat) :
    ∀ l : List (String × Nat), (setCount k v l).lookup k = some v := by
  intro l
  induction l with
  | nil => simp [setCount, List.lookup]
  | cons p rest ih =>
    obtain ⟨k2, v2⟩ := p
    rw [setCount]
    by_cases hk : k2 = k
    · simp [hk, List.lookup]
    · have hne : (k == k2) = false := by
        simp only [beq_eq_false_iff_ne]
        exact fun h => hk h.symm
      simp [hk, List.lookup, hne, ih]

/-- Success path of the row body after the open step: attributes were found
and filled, save and close succeed; the row ends in the `success` category
with its file saved. -/
theorem processRowFill_success (env : BatchEnv) (tipo : String) (row : Row)
    (idx : Nat) (st : WorkerState) (posicao ofn : String)
    (hfill : ¬ ((fill_attributes (attribute_mapping env.today tipo row)
        (env.paperSpace tipo)).2.2 = false ∨
      (fill_attributes (attribute_mapping env.today tipo row)
        (env.paperSpace tipo)).2.1 = 0))
    (hsave : env.saveResult st.saveTick = Except.ok ())
    (hclose : env.closeResult st.closeTick = Except.ok ()) :
    processRowFill env tipo row idx st posicao ofn =
      ({ st with saveTick := st.saveTick + 1, closeTick := st.closeTick + 1,
                 docVar := false,
                 trace := Event.docClosed :: Event.fileSaved ofn :: st.trace,
                 stats := { st.stats with success := st.stats.success + 1 } },
        RowExit.next) := by
  simp [processRowFill, hfill, hsave, hclose]

/-- Success path of a row including the open/reuse step. -/
theorem processRowOpen_success (env : BatchEnv) (tipo : String) (row : Row)
    (idx : Nat) (st : WorkerState) (posicao suffix : String)
    (hopen : 0 < idx → env.openResult st.openTick = Except.ok ())
    (hfill : ¬ ((fill_attributes (attribute_mapping env.today tipo row)
        (env.paperSpace tipo)).2.2 = false ∨
      (fill_attributes (attribute_mapping env.today tipo row)
        (env.paperSpace tipo)).2.1 = 0))
    (hsave : env.saveResult st.saveTick = Except.ok ())
    (hclose : env.closeResult st.closeTick = Except.ok ()) :
    processRowOpen env tipo row idx st posicao suffix =
      ({ st with openTick := st.openTick + (if 0 < idx then 1 else 0),
                 saveTick := st.saveTick + 1, closeTick := st.closeTick + 1,
                 docVar := false,
                 trace := Event.docClosed ::
                   Event.fileSaved (posicao ++ suffix ++ ".dwg") ::
                   Event.rowStarted tipo posicao :: st.trace,
                 stats := { st.stats with success := st.stats.success + 1 } },
        RowExit.next) := by
  by_cases hidx : 0 < idx
  · have h1 := processRowFill_success env tipo row idx
      { st with openTick := st.openTick + 1, docVar := true,
                trace := Event.rowStarted tipo posicao :: st.trace }
      posicao (posicao ++ suffix ++ ".dwg") hfill hsave hclose
    rw [processRowOpen]
    simp only [if_pos hidx]
    rw [show ({ st with
        trace := Event.rowStarted tipo posicao :: st.trace } : WorkerState).openTick
      = st.openTick from rfl, hopen hidx]
    simp only []
    rw [h1]
  · have h1 := processRowFill_success env tipo row idx
      { st with docVar := true, trace := Event.rowStarted tipo posicao :: st.trace }
      posicao (posicao ++ suffix ++ ".dwg") hfill hsave hclose
    rw [processRowOpen]
    simp only [if_neg hidx]
    rw [h1]
    simp [hidx]

/-- C4: duplicate-key handling.  For a row that reaches the duplicate step
(cancel flag clear) and completes normally (template handle available,
attributes found and filled, save and close succeed): a natural key not yet
in the run-scoped counter produces the unsuffixed filename `<key>.dwg`,
registers the key with count 1, leaves `duplicates` untouched and ends in
`success`; a key already used `n` times produces the suffixed filename
`<key>_<n+1>.dwg`, advances the counter to `n + 1`, increments `duplicates`
by exactly 1, records the duplicate detail — and the row still ends in
`success` with `errors` untouched, exactly like a first-use row. -/
theorem C4_duplicate_handling (env : BatchEnv) (tipo : String) (row : Row)
    (idx : Nat) (st : WorkerState)
    (hc : env.cancelFlag st.cancelTick = false)
    (hopen : 0 < idx → env.openResult st.openTick = Except.ok ())
    (hfill : ¬ ((fill_attributes (attribute_mapping env.today tipo row)
        (env.paperSpace tipo)).2.2 = false ∨
      (fill_attributes (attribute_mapping env.today tipo row)
        (env.paperSpace tipo)).2.1 = 0))
    (hsave : env.saveResult st.saveTick = Except.ok ())
    (hclose : env.closeResult st.closeTick = Except.ok ()) :
    (st.position_counter.lookup row.posicao = none →
      processRow env tipo row idx st =
        ({ st with cancelTick := st.cancelTick + 1,
                   position_counter := setCount row.posicao 1 st.position_counter,
                   openTick := st.openTick + (if 0 < idx then 1 else 0),
                   saveTick := st.saveTick + 1, closeTick := st.closeTick + 1,
                   docVar := false,
                   trace := Event.docClosed ::
                     Event.fileSaved (row.posicao ++ "" ++ ".dwg") ::
                     Event.rowStarted tipo row.posicao :: st.trace,
                   stats := { st.stats with success := st.stats.success + 1 } },
          RowExit.next) ∧
      (setCount row.posicao 1 st.position_counter).lookup row.posicao = some 1) ∧
    (∀ n, st.position_counter.lookup row.posicao = some n →
      processRow env tipo row idx st =
        ({ st with cancelTick := st.cancelTick + 1,
                   position_counter :=
                     setCount row.posicao (n + 1) st.position_counter,
                   openTick := st.openTick + (if 0 < idx then 1 else 0),
                   saveTick := st.saveTick + 1, closeTick := st.closeTick + 1,
                   docVar := false,
                   trace := Event.docClosed ::
                     Event.fileSaved
                       (row.posicao ++ ("_" ++ toString (n + 1)) ++ ".dwg") ::
                     Event.rowStarted tipo row.posicao :: st.trace,
                   stats := { st.stats with
                     success := st.stats.success + 1,
                     duplicates := st.stats.duplicates + 1,
                     duplicate_details := st.stats.duplicate_details ++
                       [(row.posicao, row.posicao ++ "_" ++ toString (n + 1))] } },
          RowExit.next) ∧
      (setCount row.posicao (n + 1) st.position_counter).lookup row.posicao
        = some (n + 1)) := by
  constructor
  · intro hl
    refine ⟨?_, setCount_lookup row.posicao 1 st.position_counter⟩
    have h1 := processRowOpen_success env tipo row idx
      { st with cancelTick := st.cancelTick + 1,
                position_counter := setCount row.posicao 1 st.position_counter }
      row.posicao "" hopen hfill hsave hclose
    rw [processRow]
    simp only [hc, Bool.false_eq_true, if_false]
    rw [show List.lookup row.posicao
        ({ st with cancelTick := st.cancelTick + 1 } : WorkerState).position_counter
      = List.lookup row.posicao st.position_counter from rfl, hl]
    simp only []
    rw [h1]
  · intro n hl
    refine ⟨?_, setCount_lookup row.posicao (n + 1) st.position_counter⟩
    have h1 := processRowOpen_success env tipo row idx
      { st with cancelTick := st.cancelTick + 1,
                position_counter := setCount row.posicao (n + 1) st.position_counter,
                stats := { st.stats with
                  duplicates := st.stats.duplicates + 1,
                  duplicate_details := st.stats.duplicate_details ++
                    [(row.posicao, row.posicao ++ "_" ++ toString (n + 1))] } }
      row.posicao ("_" ++ toString (n + 1)) hopen hfill hsave hclose
    rw [processRow]
    simp only [hc, Bool.false_eq_true, if_false]
    rw [show List.lookup row.posicao
        ({ st with cancelTick := st.cancelTick + 1 } : WorkerState).position_counter
      = List.lookup row.posicao st.position_counter from rfl, hl]
    simp only []
    rw [h1]

/-- C4 witness: the first "A1" row saves `A1.dwg` with no duplicate event;
a second "A1" row saves `A1_2.dwg`, bumps `duplicates` to 1 and still ends
in success with zero errors. -/
theorem C4_duplicate_handling_witness :
    (processRow envC4 "X" rowA1 0 (initState 2)).1.stats.success = 1 ∧
    (processRow envC4 "X" rowA1 0 (initState 2)).1.stats.duplicates = 0 ∧
    Event.fileSaved ("A1" ++ "" ++ ".dwg")
      ∈ (processRow envC4 "X" rowA1 0 (initState 2)).1.trace ∧
    (processRow envC4 "X" rowA1 0 stDup).1.stats.duplicates = 1 ∧
    (processRow envC4 "X" rowA1 0 stDup).1.stats.success = 1 ∧
    (processRow envC4 "X" rowA1 0 stDup).1.stats.errors = 0 ∧
    Event.fileSaved ("A1" ++ ("_" ++ toString 2) ++ ".dwg")
      ∈ (processRow envC4 "X" rowA1 0 stDup).1.trace := by
  have h1 := (C4_duplicate_handling envC4 "X" rowA1 0 (initState 2) rfl
    (fun h => absurd h (by decide)) (by decide) rfl rfl).1 rfl
  have h2 := (C4_duplicate_handling envC4 "X" rowA1 0 stDup rfl
    (fun h => absurd h (by decide)) (by decide) rfl rfl).2 1 rfl
  rw [h1.1, h2.1]
  exact ⟨rfl, rfl, by decide, rfl, rfl, rfl, by decide⟩

/-- No-attributes path of the row body after the open step: the row is
categorized `no_attributes`, a freshly opened handle is closed without
saving, and no file is written. -/
theorem processRowFill_noattr (env : BatchEnv) (tipo : String) (row : Row)
    (idx : Nat) (st : WorkerState) (posicao ofn : String)
    (hfill : (fill_attributes (attribute_mapping env.today tipo row)
        (env.paperSpace tipo)).2.2 = false ∨
      (fill_attributes (attribute_mapping env.today tipo row)
        (env.paperSpace tipo)).2.1 = 0) :
    processRowFill env tipo row idx st posicao ofn =
      ({ st with
          stats := { st.stats with
            no_attributes := st.stats.no_attributes + 1,
            no_attributes_details :=
              st.stats.no_attributes_details ++ [(posicao, tipo)] },
          docVar := false,
          trace := if 0 < idx then Event.docCloseNoSave :: st.trace else st.trace },
        RowExit.next) := by
  simp [processRowFill, hfill]

/-- No-attributes path of a row including the open/reuse step. -/
theorem processRowOpen_noattr (env : BatchEnv) (tipo : String) (row : Row)
    (idx : Nat) (st : WorkerState) (posicao suffix : String)
    (hopen : 0 < idx → env.openResult st.openTick = Except.ok ())
    (hfill : (fill_attributes (attribute_mapping env.today tipo row)
        (env.paperSpace tipo)).2.2 = false ∨
      (fill_attributes (attribute_mapping env.today tipo row)
        (env.paperSpace tipo)).2.1 = 0) :
    processRowOpen env tipo row idx st posicao suffix =
      ({ st with
          openTick := st.openTick + (if 0 < idx then 1 else 0),
          stats := { st.stats with
            no_attributes := st.stats.no_attributes + 1,
            no_attributes_details :=
              st.stats.no_attributes_details ++ [(posicao, tipo)] },
          docVar := false,
          trace := if 0 < idx
            then Event.docCloseNoSave :: Event.rowStarted tipo posicao :: st.trace
            else Event.rowStarted tipo posicao :: st.trace },
        RowExit.next) := by
  by_cases hidx : 0 < idx
  · have h1 := processRowFill_noattr env tipo row idx
      { st with openTick := st.openTick + 1, docVar := true,
                trace := Event.rowStarted tipo posicao :: st.trace }
      posicao (posicao ++ suffix ++ ".dwg") hfill
    rw [processRowOpen]
    simp only [if_pos hidx]
    rw [show ({ st with
        trace := Event.rowStarted tipo posicao :: st.trace } : WorkerState).openTick
      = st.openTick from rfl, hopen hidx]
    simp only []
    rw [h1]
    simp [hidx]
  · have h1 := processRowFill_noattr env tipo row idx
      { st with docVar := true, trace := Event.rowStarted tipo posicao :: st.trace }
      posicao (posicao ++ suffix ++ ".dwg") hfill
    rw [processRowOpen]
    simp only [if_neg hidx]
    rw [h1]
    simp [hidx]

/-- A first-use row that finds no matching attributes: the key is registered
in the counter even though the row is skipped and no file is written. -/
theorem processRow_first_noattr (env : BatchEnv) (tipo : String) (row : Row)
    (idx : Nat) (st : WorkerState)
    (hc : env.cancelFlag st.cancelTick = false)
    (hl : st.position_counter.lookup row.posicao = none)
    (hopen : 0 < idx → env.openResult st.openTick = Except.ok ())
    (hfill : (fill_attributes (attribute_mapping env.today tipo row)
        (env.paperSpace tipo)).2.2 = false ∨
      (fill_attributes (attribute_mapping env.today tipo row)
        (env.paperSpace tipo)).2.1 = 0) :
    processRow env tipo row idx st =
      ({ st with
          cancelTick := st.cancelTick + 1,
          position_counter := setCount row.posicao 1 st.position_counter,
          openTick := st.openTick + (if 0 < idx then 1 else 0),
          stats := { st.stats with
            no_attributes := st.stats.no_attributes + 1,
            no_attributes_details :=
              st.stats.no_attributes_details ++ [(row.posicao, tipo)] },
          docVar := false,
          trace := if 0 < idx
            then Event.docCloseNoSave :: Event.rowStarted tipo row.posicao :: st.trace
            else Event.rowStarted tipo row.posicao :: st.trace },
        RowExit.next) := by
  have h1 := processRowOpen_noattr env tipo row idx
    { st with cancelTick := st.cancelTick + 1,
              position_counter := setCount row.posicao 1 st.position_counter }
    row.posicao "" hopen hfill
  rw [processRow]
  simp only [hc, Bool.false_eq_true, if_false]
  rw [show List.lookup row.posicao
      ({ st with cancelTick := st.cancelTick + 1 } : WorkerState).position_counter
    = List.lookup row.posicao st.position_counter from rfl, hl]
  simp only []
  rw [h1]

/-- A repeated-key row that completes normally: suffix `_<n+1>`, duplicate
event, and the row still ends in success. -/
theorem processRow_dup (env : BatchEnv) (tipo : String) (row : Row)
    (idx : Nat) (st : WorkerState) (n : Nat)
    (hc : env.cancelFlag st.cancelTick = false)
    (hl : st.position_counter.lookup row.posicao = some n)
    (hopen : 0 < idx → env.openResult st.openTick = Except.ok ())
    (hfill : ¬ ((fill_attributes (attribute_mapping env.today tipo row)
        (env.paperSpace tipo)).2.2 = false ∨
      (fill_attributes (attribute_mapping env.today tipo row)
        (env.paperSpace tipo)).2.1 = 0))
    (hsave : env.saveResult st.saveTick = Except.ok ())
    (hclose : env.closeResult st.closeTick = Except.ok ()) :
    processRow env tipo row idx st =
      ({ st with
          cancelTick := st.cancelTick + 1,
          position_counter := setCount row.posicao (n + 1) st.position_counter,
          openTick := st.openTick + (if 0 < idx then 1 else 0),
          saveTick := st.saveTick + 1, closeTick := st.closeTick + 1,
          docVar := false,
          trace := Event.docClosed ::
            Event.fileSaved (row.posicao ++ ("_" ++ toString (n + 1)) ++ ".dwg") ::
            Event.rowStarted tipo row.posicao :: st.trace,
          stats := { st.stats with
            success := st.stats.success + 1,
            duplicates := st.stats.duplicates + 1,
            duplicate_details := st.stats.duplicate_details ++
              [(row.posicao, row.posicao ++ "_" ++ toString (n + 1))] } },
        RowExit.next) := by
  have h1 := processRowOpen_success env tipo row idx
    { st with cancelTick := st.cancelTick + 1,
              position_counter := setCount row.posicao (n + 1) st.position_counter,
              stats := { st.stats with
                duplicates := st.stats.duplicates + 1,
                duplicate_details := st.stats.duplicate_details ++
                  [(row.posicao, row.posicao ++ "_" ++ toString (n + 1))] } }
    row.posicao ("_" ++ toString (n + 1)) hopen hfill hsave hclose
  rw [processRow]
  simp only [hc, Bool.false_eq_true, if_false]
  rw [show List.lookup row.posicao
      ({ st with cancelTick := st.cancelTick + 1 } : WorkerState).position_counter
    = List.lookup row.posicao st.position_counter from rfl, hl]
  simp only []
  rw [h1]

/-- C10: the run-scoped duplicate-key counter is consumed when a row's
output key is computed, before the row's outcome is known.  A first-use
row that ends `no_attributes_found` (no file written) still registers its
key with count 1; a later row of the same run with the same key is then
treated as a duplicate: its `duplicates` count increments and its output
file carries the `_2` suffix even though no unsuffixed file was ever
produced for that key. -/
theorem C10_counter_before_outcome (env : BatchEnv) (tipo1 tipo2 : String)
    (row1 row2 : Row) (idx1 idx2 : Nat) (st : WorkerState)
    (hc1 : env.cancelFlag st.cancelTick = false)
    (hfirst : st.position_counter.lookup row1.posicao = none)
    (hopen1 : 0 < idx1 → env.openResult st.openTick = Except.ok ())
    (hnoattr : (fill_attributes (attribute_mapping env.today tipo1 row1)
        (env.paperSpace tipo1)).2.2 = false ∨
      (fill_attributes (attribute_mapping env.today tipo1 row1)
        (env.paperSpace tipo1)).2.1 = 0)
    (hsame : row2.posicao = row1.posicao)
    (hc2 : env.cancelFlag ((processRow env tipo1 row1 idx1 st).1).cancelTick = false)
    (hopen2 : 0 < idx2 →
      env.openResult ((processRow env tipo1 row1 idx1 st).1).openTick
        = Except.ok ())
    (hfill2 : ¬ ((fill_attributes (attribute_mapping env.today tipo2 row2)
        (env.paperSpace tipo2)).2.2 = false ∨
      (fill_attributes (attribute_mapping env.today tipo2 row2)
        (env.paperSpace tipo2)).2.1 = 0))
    (hsave2 : env.saveResult ((processRow env tipo1 row1 idx1 st).1).saveTick
      = Except.ok ())
    (hclose2 : env.closeResult ((processRow env tipo1 row1 idx1 st).1).closeTick
      = Except.ok ()) :
    (processRow env tipo1 row1 idx1 st).2 = RowExit.next ∧
    ((processRow env tipo1 row1 idx1 st).1).position_counter.lookup row1.posicao
      = some 1 ∧
    ((processRow env tipo1 row1 idx1 st).1).stats.no_attributes
      = st.stats.no_attributes + 1 ∧
    (∀ f, Event.fileSaved f ∈ ((processRow env tipo1 row1 idx1 st).1).trace →
      Event.fileSaved f ∈ st.trace) ∧
    ((processRow env tipo2 row2 idx2
        (processRow env tipo1 row1 idx1 st).1).1).stats.duplicates
      = st.stats.duplicates + 1 ∧
    Event.fileSaved (row1.posicao ++ ("_" ++ toString 2) ++ ".dwg")
      ∈ ((processRow env tipo2 row2 idx2
          (processRow env tipo1 row1 idx1 st).1).1).trace := by
  have e1 := processRow_first_noattr env tipo1 row1 idx1 st hc1 hfirst hopen1 hnoattr
  rw [e1] at hc2 hopen2 hsave2 hclose2 ⊢
  have hl2 : (({ st with
      cancelTick := st.cancelTick + 1,
      position_counter := setCount row1.posicao 1 st.position_counter,
      openTick := st.openTick + (if 0 < idx1 then 1 else 0),
      stats := { st.stats with
        no_attributes := st.stats.no_attributes + 1,
        no_attributes_details :=
          st.stats.no_attributes_details ++ [(row1.posicao, tipo1)] },
      docVar := false,
      trace := if 0 < idx1
        then Event.docCloseNoSave :: Event.rowStarted tipo1 row1.posicao :: st.trace
        else Event.rowStarted tipo1 row1.posicao :: st.trace } :
        WorkerState).position_counter).lookup row2.posicao = some 1 := by
    rw [hsame]
    exact setCount_lookup row1.posicao 1 st.position_counter
  have e2 := processRow_dup env tipo2 row2 idx2 _ 1 hc2 hl2 hopen2 hfill2 hsave2 hclose2
  rw [e2]
  refine ⟨rfl, ?_, rfl, ?_, rfl, ?_⟩
  · exact setCount_lookup row1.posicao 1 st.position_counter
  · intro f hf
    by_cases hidx : 0 < idx1
    · simp only [hidx, if_pos] at hf
      simp at hf
      exact hf
    · simp only [hidx, if_neg] at hf
      simp at hf
      exact hf
  · rw [hsame]
    exact List.mem_cons_of_mem _ (List.mem_cons_self _ _)

/-- C10 witness: an "A1" row in group "X" is skipped as `no_attributes`
(no file written) yet registers its key; the next "A1" row, in group "Y",
is counted as a duplicate and saved as `A1_2.dwg`. -/
theorem C10_counter_before_outcome_witness :
    (processRow envC10 "X" rowA1 0 (initState 2)).2 = RowExit.next ∧
    ((processRow envC10 "X" rowA1 0 (initState 2)).1).position_counter.lookup
        rowA1.posicao = some 1 ∧
    ((processRow envC10 "X" rowA1 0 (initState 2)).1).stats.no_attributes
      = (initState 2).stats.no_attributes + 1 ∧
    (∀ f, Event.fileSaved f
        ∈ ((processRow envC10 "X" rowA1 0 (initState 2)).1).trace →
      Event.fileSaved f ∈ (initState 2).trace) ∧
    ((processRow envC10 "Y" rowA1Y 0
        (processRow envC10 "X" rowA1 0 (initState 2)).1).1).stats.duplicates
      = (initState 2).stats.duplicates + 1 ∧
    Event.fileSaved (rowA1.posicao ++ ("_" ++ toString 2) ++ ".dwg")
      ∈ ((processRow envC10 "Y" rowA1Y 0
          (processRow envC10 "X" rowA1 0 (initState 2)).1).1).trace :=
  C10_counter_before_outcome envC10 "X" "Y" rowA1 rowA1Y 0 0 (initState 2)
    rfl rfl (fun h => absurd h (by decide)) (by decide) rfl rfl
    (fun h => absurd h (by decide)) (by decide) rfl rfl

/-- C7 counterexample: an entity satisfying the claim's four stages (some
attribute tagged `POSICAO` has non-empty text) that the scan nevertheless
does not return: the attribute loop breaks at the *first* matching tag,
finds empty text there, and skips the entity. -/
theorem C7_counterexample :
    spec_stage_filter "POSICAO" "SP_" entC7 = true ∧
      collect_blocks "POSICAO" "SP_" [entC7] = [] := by
  decide

/-- C7 amended: the scan applies the four stages in the claimed order with
short-circuiting, but stage (d) is decided by the *first* attribute whose
uppercased tag equals `identifying_attribute` exactly as given (the
comparison uppercases only the entity's tag, so it is case-insensitive only
for an uppercase `identifying_attribute`, and later matching attributes are
never consulted): exactly the entities passing those code stages are
returned, in server iteration order, each record's tag being that first
matching attribute's text. -/
theorem C7_amended (tagAtributo prefixoBloco : String) (ms : List AcadEntity) :
    collect_blocks tagAtributo prefixoBloco ms =
      (ms.filter (code_stage_filter tagAtributo prefixoBloco)).map
        (mkSupportRecord tagAtributo) := by
  induction ms with
  | nil => rfl
  | cons e rest ih =>
    rw [collect_blocks]
    by_cases h1 : e.entityName ≠ "AcDbBlockReference"
    · have hf : code_stage_filter tagAtributo prefixoBloco e = false := by
        rw [code_stage_filter, if_pos h1]
      rw [if_pos h1]
      simp [List.filter_cons, hf, ih]
    · rw [if_neg h1]
      by_cases h2 : ¬ (strStartsWith e.name prefixoBloco = true)
      · have hf : code_stage_filter tagAtributo prefixoBloco e = false := by
          rw [code_stage_filter, if_neg h1, if_pos h2]
        rw [if_pos h2]
        simp [List.filter_cons, hf, ih]
      · rw [if_neg h2]
        by_cases h3 : ¬ (e.hasAttributes = true)
        · have hf : code_stage_filter tagAtributo prefixoBloco e = false := by
            rw [code_stage_filter, if_neg h1, if_neg h2, if_pos h3]
          rw [if_pos h3]
          simp [List.filter_cons, hf, ih]
        · rw [if_neg h3]
          by_cases h4 : firstTagText tagAtributo e.attributes = ""
          · have hf : code_stage_filter tagAtributo prefixoBloco e = false := by
              rw [code_stage_filter, if_neg h1, if_neg h2, if_neg h3, if_pos h4]
            simp only [h4, if_pos]
            simp [List.filter_cons, hf, ih]
          · have hf : code_stage_filter tagAtributo prefixoBloco e = true := by
              rw [code_stage_filter, if_neg h1, if_neg h2, if_neg h3, if_neg h4]
            simp only [h4, if_neg]
            simp [List.filter_cons, hf, ih, mkSupportRecord]
